import Mathlib

/-!
# LicenseGuard UI — shallow embedding

A shallow embedding of the LicenseGuard browser UI, covering the pieces the
specification talks about: the file validator of the `FileUpload` component,
the zod form validators, the submit handlers of the login, sign-up and main
(analysis) pages, and the streaming analysis call `getAnalysisStream` of the
API service layer.

Conventions used throughout:
* a JavaScript `File` object is modelled by `CandidateFile` (name, declared
  MIME type, byte size);
* `null`-able values are modelled by `Option`;
* React `useState` cells of a component are gathered into a `State`
  structure, and an event handler becomes a function from the old state (plus
  the event payload) to the new state, together with any callback invocations
  it performs, listed in order;
* the network is abstracted by an explicit response value handed to the
  function under scrutiny, and the requests it would send are returned as
  data so that "no network call occurs" is the statement `requests = []`
  (respectively `networkCalled = false`).
-/

namespace Js

/-- JavaScript `String.prototype.endsWith(search)`: the character sequence of
`search` is a suffix of the one of `s`.  (Defined structurally over the
character list so that concrete calls evaluate by `decide`/`rfl`; Lean's own
`String.endsWith` agrees but is defined by well-founded recursion on byte
positions and does not reduce definitionally.) -/
def endsWith (s search : String) : Bool :=
  List.isSuffixOf search.data s.data

/-- JavaScript `String.prototype.trim()`: strips leading and trailing
whitespace (the whitespace that occurs in this code base is ASCII, which
`Char.isWhitespace` covers). -/
def trim (s : String) : String :=
  ⟨List.reverse (List.dropWhile Char.isWhitespace
    (List.reverse (List.dropWhile Char.isWhitespace s.data)))⟩

end Js

/-- A candidate file as the browser hands it to the UI: filename, declared
MIME type (`File.type`), and byte size (`File.size`). -/
structure CandidateFile where
  name : String
  type : String
  size : Nat
  deriving DecidableEq, Repr

namespace FileUpload

/-- `const MAX_FILE_SIZE = 1 * 1024 * 1024; // 1 MB in bytes` -/
def MAX_FILE_SIZE : Nat := 1 * 1024 * 1024

/-- The `useState` cells of the `FileUpload` component: the accepted file and
the displayed rejection reason. -/
structure State where
  file : Option CandidateFile
  error : Option String
  deriving DecidableEq, Repr

/-- Result of one run of `handleFileChange`: the component state afterwards
and the `onChange` invocations made, in order (`none` encodes
`onChange(null)`). -/
structure ChangeResult where
  state : State
  onChangeCalls : List (Option CandidateFile)
  deriving DecidableEq, Repr

/-- `FileUpload.handleFileChange`: validates a candidate file with three
rules — MIME type, then filename extension, then byte size — stopping at the
first failure; a failure stores that rule's reason, clears the selection and
calls `onChange(null)`; full success stores the file, clears the reason and
calls `onChange(file)`.  A `null` candidate does nothing at all. -/
def handleFileChange (s : State) (selectedFile : Option CandidateFile) :
    ChangeResult :=
  match selectedFile with
  | none => ⟨s, []⟩
  | some f =>
    if f.type ≠ "text/plain" then
      ⟨⟨none, some "Only text files are allowed (MIME type: text/plain)"⟩, [none]⟩
    else if !(Js.endsWith f.name ".txt") then
      ⟨⟨none, some "Only .txt files are allowed"⟩, [none]⟩
    else if f.size > MAX_FILE_SIZE then
      ⟨⟨none, some "File size must not exceed 1 MB"⟩, [none]⟩
    else
      ⟨⟨some f, none⟩, [some f]⟩

/-- `FileUpload.handleInputChange`: `e.target.files?.[0] || null` then
`handleFileChange` on the result. -/
def handleInputChange (s : State) (files : List CandidateFile) : ChangeResult :=
  handleFileChange s files.head?

end FileUpload

namespace validators

/-- `usernameSchema = z.string().min(4, …).max(100, …).trim()`.  zod runs the
chained checks and transforms in the order they were added, so the `min` and
`max` length checks see the *raw* string and the `trim` transform is applied
only afterwards, to the output value. -/
def usernameSchema (s : String) : Except String String :=
  if s.length < 4 then .error "Username must be at least 4 characters."
  else if s.length > 100 then .error "Username must not exceed 100 characters."
  else .ok (Js.trim s)

/-- `passwordSchema = z.string().min(4, …)`. -/
def passwordSchema (s : String) : Except String String :=
  if s.length < 4 then .error "Password must be at least 4 characters."
  else .ok s

/-- `loginSchema.safeParse` collapsed to its first issue (`issues[0]`), which
is what `LoginPage.handleSubmit` reads: the object fields are parsed in key
order, username before password. -/
def loginSchema (username password : String) :
    Except String (String × String) :=
  match usernameSchema username with
  | .error m => .error m
  | .ok u =>
    match passwordSchema password with
    | .error m => .error m
    | .ok p => .ok (u, p)

/-- `signUpSchema.safeParse` collapsed to its first issue: field parses in
key order (username, password, confirmPassword), then the `.refine` equality
of password and confirmation, which only runs when the base object parses. -/
def signUpSchema (username password confirmPassword : String) :
    Except String (String × String × String) :=
  match usernameSchema username with
  | .error m => .error m
  | .ok u =>
    match passwordSchema password with
    | .error m => .error m
    | .ok p =>
      match passwordSchema confirmPassword with
      | .error m => .error m
      | .ok c =>
        if password ≠ confirmPassword then .error "Passwords do not match"
        else .ok (u, p, c)

end validators

namespace LoginPage

/-- Outcome of one `LoginPage.handleSubmit` run: the error text displayed
afterwards (`""` when cleared), whether `loginUser` was called, and with
which `(email, password)` arguments. -/
structure SubmitResult where
  error : String
  networkCalled : Bool
  networkArgs : Option (String × String)
  deriving DecidableEq, Repr

/-- `LoginPage.handleSubmit`: clears the error, validates with `loginSchema`
and stops with the first issue's message on failure (no network call);
otherwise calls `loginUser(email, password)`, whose outcome is abstracted by
`loginSucceeds`, and on rejection shows the fixed generic message. -/
def handleSubmit (email password : String) (loginSucceeds : Bool) :
    SubmitResult :=
  match validators.loginSchema email password with
  | .error m => ⟨m, false, none⟩
  | .ok _ =>
    if loginSucceeds then ⟨"", true, some (email, password)⟩
    else ⟨"Invalid username or password. Please try again.", true,
          some (email, password)⟩

end LoginPage

namespace SignUpPage

/-- Outcome of one `SignUpPage.handleSubmit` run, mirroring
`LoginPage.SubmitResult` for the `registerUser` call. -/
structure SubmitResult where
  error : String
  networkCalled : Bool
  networkArgs : Option (String × String)
  deriving DecidableEq, Repr

/-- `SignUpPage.handleSubmit`: the only local check performed is
`password !== confirmPassword` (mismatch sets the error and returns);
otherwise the error is cleared and `registerUser(email, password)` is called,
its outcome abstracted by `registerSucceeds` (rejection shows the fixed
generic message). -/
def handleSubmit (email password confirmPassword : String)
    (registerSucceeds : Bool) : SubmitResult :=
  if password ≠ confirmPassword then
    ⟨"Passwords do not match", false, none⟩
  else if registerSucceeds then ⟨"", true, some (email, password)⟩
  else ⟨"Failed to create account. Email may already be in use.", true,
        some (email, password)⟩

end SignUpPage

namespace api

/-- The HTTP request `getAnalysisStream` sends to the analysis service. -/
structure StreamRequest where
  url : String
  authorization : String
  accept : String
  projectName : String
  fileName : String
  deriving DecidableEq, Repr

/-- Abstract behaviour of the analysis backend for one request: a non-2xx
status with an error body, a 2xx response with no body, a stream of decoded
text chunks that ends naturally, or a stream that throws after delivering
some chunks. -/
inductive StreamResponse where
  | httpError (errorText : String)
  | noBody
  | chunks (cs : List String)
  | chunksThenThrow (cs : List String) (msg : String)
  deriving DecidableEq, Repr

/-- Observable behaviour of one `getAnalysisStream` call: the requests sent
(empty when no network round-trip happened), the `onChunk` invocations made
in order, and the error thrown, if any (`none` = returned normally). -/
structure StreamRun where
  requests : List StreamRequest
  fragments : List String
  thrown : Option String
  deriving DecidableEq, Repr

/-- The read loop of `getAnalysisStream`: one `reader.read()` at a time, each
resolved chunk handed to `onChunk` exactly once, in arrival order, before the
next read is issued. -/
def readLoop {σ : Type _} (onChunk : String → σ → σ) : List String → σ → σ
  | [], st => st
  | c :: cs, st => readLoop onChunk cs (onChunk c st)

/-- The request built by `getAnalysisStream` for a stored token `t`:
`POST <AGENT_URL>/generate/report` with headers
`Authorization: Bearer <t>` and `Accept: text/plain`, multipart body
`project_name` and `requirements_file`. -/
def mkRequest (token projectName fileName : String) : StreamRequest :=
  ⟨"/generate/report", "Bearer " ++ token, "text/plain", projectName, fileName⟩

/-- `api.getAnalysisStream`: reads the token from storage (`token` argument),
throws "Not authenticated. Please log in." with no request when it is absent;
otherwise sends the request and either throws on a non-2xx status (with the
server's body text) or on a missing body, or runs the read loop, delivering
each chunk via `onChunk`; an error thrown mid-stream ends the call but the
chunks already delivered stay delivered. -/
def getAnalysisStream (token : Option String) (projectName : String)
    (file : CandidateFile) (response : StreamResponse) : StreamRun :=
  match token with
  | none => ⟨[], [], some "Not authenticated. Please log in."⟩
  | some t =>
    let req := mkRequest t projectName file.name
    match response with
    | .httpError errorText =>
      ⟨[req], [], some ("Analysis request failed: " ++ errorText)⟩
    | .noBody => ⟨[req], [], some "No response body from stream"⟩
    | .chunks cs => ⟨[req], cs, none⟩
    | .chunksThenThrow cs msg => ⟨[req], cs, some msg⟩

end api

namespace MainPage

/-- The `useState` cells of the `MainPage` (analysis page) controller. -/
structure State where
  projectName : String
  file : Option CandidateFile
  analysisResult : String
  isLoading : Bool
  error : Option String
  deriving DecidableEq, Repr

/-- `MainPage.handleFileChange`: stores the `onChange` value from
`FileUpload` and clears the previous transcript and error. -/
def handleFileChange (s : State) (selectedFile : Option CandidateFile) :
    State :=
  { s with file := selectedFile, analysisResult := "", error := none }

/-- The chunk callback `MainPage.handleSubmit` passes to
`getAnalysisStream`: `setAnalysisResult((prev) => prev + chunk)`. -/
def onChunk (c : String) (s : State) : State :=
  { s with analysisResult := s.analysisResult ++ c }

/-- `MainPage.handleSubmit`: guards on a present file and a non-empty project
name, then clears error and transcript, runs `getAnalysisStream` (the read
loop appending each chunk to the transcript), stores a thrown error's message
without touching the transcript, and finally drops the loading flag. -/
def handleSubmit (token : Option String) (response : api.StreamResponse)
    (s : State) : State :=
  match s.file with
  | none =>
    { s with error := some "Please provide a project name and a requirements.txt file." }
  | some f =>
    if s.projectName = "" then
      { s with error := some "Please provide a project name and a requirements.txt file." }
    else
      let s1 := { s with isLoading := true, error := none, analysisResult := "" }
      let run := api.getAnalysisStream token s.projectName f response
      let s2 := api.readLoop onChunk run.fragments s1
      let s3 :=
        match run.thrown with
        | none => s2
        | some m => { s2 with error := some m }
      { s3 with isLoading := false }

/-- Selecting a candidate file on the analysis page: `FileUpload` validates
it, and each `onChange` call it makes flows into `MainPage.handleFileChange`. -/
def selectFile (fs : FileUpload.State) (s : State)
    (candidate : Option CandidateFile) : FileUpload.State × State :=
  let r := FileUpload.handleFileChange fs candidate
  (r.state, r.onChangeCalls.foldl handleFileChange s)

end MainPage

/-! ## Shared helper lemmas -/

/-- String concatenation is associative. -/
theorem string_append_assoc (a b c : String) : a ++ b ++ c = a ++ (b ++ c) := by
  apply String.ext
  simp

/-- `String.join` peels off the head fragment. -/
theorem string_join_cons (c : String) (cs : List String) :
    String.join (c :: cs) = c ++ String.join cs := by
  apply String.ext
  simp

/-- Closed form of the read loop with the transcript-appending callback: it
changes nothing but the transcript, to which it appends the concatenation of
the delivered chunks in order. -/
theorem readLoop_eq (cs : List String) (st : MainPage.State) :
    api.readLoop MainPage.onChunk cs st =
      { st with analysisResult := st.analysisResult ++ String.join cs } := by
  induction cs generalizing st with
  | nil =>
    obtain ⟨pn, fl, ar, il, er⟩ := st
    rw [show String.join ([] : List String) = "" from rfl, String.append_empty]
    rfl
  | cons c cs ih =>
    obtain ⟨pn, fl, ar, il, er⟩ := st
    rw [show api.readLoop MainPage.onChunk (c :: cs) ⟨pn, fl, ar, il, er⟩ =
          api.readLoop MainPage.onChunk cs ⟨pn, fl, ar ++ c, il, er⟩ from rfl,
      ih, string_join_cons, ← string_append_assoc]

/-- Closed form of `MainPage.handleSubmit` when the guard passes (a file is
present and the project name is non-empty): the transcript becomes exactly
the join of the delivered fragments, the error is the thrown message (if
any), and the loading flag ends up `false`. -/
theorem handleSubmit_run (token : Option String) (resp : api.StreamResponse)
    (s : MainPage.State) (f : CandidateFile) (hf : s.file = some f)
    (hp : s.projectName ≠ "") :
    MainPage.handleSubmit token resp s =
      { projectName := s.projectName, file := some f,
        analysisResult :=
          String.join (api.getAnalysisStream token s.projectName f resp).fragments,
        isLoading := false,
        error := (api.getAnalysisStream token s.projectName f resp).thrown } := by
  obtain ⟨pn, fl, ar, il, er⟩ := s
  have hf' : fl = some f := hf
  subst hf'
  have hp' : ¬ pn = "" := hp
  cases token <;> cases resp <;>
    simp [MainPage.handleSubmit, api.getAnalysisStream, api.mkRequest,
      readLoop_eq, hp', String.empty_append,
      show String.join ([] : List String) = "" from rfl]

/-! ## Claims -/

/-- Claim C1: the analysis transcript equals the concatenation, in arrival
order, of all fragments delivered so far by the stream reader.  The chunk
callback appends each received fragment exactly once at the end of the
buffer; after the first `k` fragments of a stream the transcript is exactly
the join of those `k` fragments (no reordering, no truncation); a full
`handleSubmit` run leaves the transcript equal to the join of all fragments
of the run; and the transcript only becomes empty on the explicit resets
(new file selected; new analysis started, which clears before streaming). -/
theorem C1_transcript_concat :
    (∀ (st : MainPage.State) (c : String),
      (MainPage.onChunk c st).analysisResult = st.analysisResult ++ c) ∧
    (∀ (cs : List String) (k : Nat) (st : MainPage.State),
      st.analysisResult = "" →
      (api.readLoop MainPage.onChunk (cs.take k) st).analysisResult =
        String.join (cs.take k)) ∧
    (∀ (token : Option String) (resp : api.StreamResponse)
      (s : MainPage.State) (f : CandidateFile),
      s.file = some f → s.projectName ≠ "" →
      (MainPage.handleSubmit token resp s).analysisResult =
        String.join (api.getAnalysisStream token s.projectName f resp).fragments) ∧
    (∀ (s : MainPage.State) (v : Option CandidateFile),
      (MainPage.handleFileChange s v).analysisResult = "") := by
  refine ⟨fun st c => rfl, ?_, ?_, fun s v => rfl⟩
  · intro cs k st h
    rw [readLoop_eq, h]
    simp [String.empty_append]
  · intro token resp s f hf hp
    rw [handleSubmit_run token resp s f hf hp]

/-- Witness for C1 at concrete inputs. -/
theorem C1_transcript_concat_witness :
    (api.readLoop MainPage.onChunk (["ab", "cd", "ef"].take 2)
      ⟨"proj", none, "", false, none⟩).analysisResult =
      String.join (["ab", "cd", "ef"].take 2) ∧
    (MainPage.handleSubmit (some "tok") (.chunks ["ab", "cd"])
      ⟨"proj", some ⟨"r.txt", "text/plain", 3⟩, "old", false, none⟩).analysisResult =
      String.join (api.getAnalysisStream (some "tok") "proj"
        ⟨"r.txt", "text/plain", 3⟩ (.chunks ["ab", "cd"])).fragments :=
  ⟨C1_transcript_concat.2.1 ["ab", "cd", "ef"] 2 ⟨"proj", none, "", false, none⟩ rfl,
   C1_transcript_concat.2.2.1 (some "tok") (.chunks ["ab", "cd"])
     ⟨"proj", some ⟨"r.txt", "text/plain", 3⟩, "old", false, none⟩
     ⟨"r.txt", "text/plain", 3⟩ rfl (by decide)⟩

/-- Claim C2: when the streaming call throws after delivering some fragments,
the partial transcript built from those fragments is retained unchanged, and
the thrown message is stored verbatim as the displayed error; the fragments
are not discarded. -/
theorem C2_partial_transcript_retained (token : String) (s : MainPage.State)
    (f : CandidateFile) (cs : List String) (msg : String)
    (hf : s.file = some f) (hp : s.projectName ≠ "") :
    (MainPage.handleSubmit (some token) (.chunksThenThrow cs msg) s).analysisResult =
      String.join cs ∧
    (MainPage.handleSubmit (some token) (.chunksThenThrow cs msg) s).error =
      some msg ∧
    (MainPage.handleSubmit (some token) (.chunksThenThrow cs msg) s).isLoading =
      false := by
  rw [handleSubmit_run (some token) (.chunksThenThrow cs msg) s f hf hp]
  exact ⟨rfl, rfl, rfl⟩

/-- Witness for C2: the spec's concrete scenario — fragments `"## Report\n"`
then `"Line 2"`, then a thrown `"boom"`. -/
theorem C2_partial_transcript_retained_witness :
    (MainPage.handleSubmit (some "tok")
      (.chunksThenThrow ["## Report\n", "Line 2"] "boom")
      ⟨"proj", some ⟨"requirements.txt", "text/plain", 10⟩, "", false,
        none⟩).analysisResult = "## Report\nLine 2" ∧
    (MainPage.handleSubmit (some "tok")
      (.chunksThenThrow ["## Report\n", "Line 2"] "boom")
      ⟨"proj", some ⟨"requirements.txt", "text/plain", 10⟩, "", false,
        none⟩).error = some "boom" := by
  have h := C2_partial_transcript_retained "tok"
    ⟨"proj", some ⟨"requirements.txt", "text/plain", 10⟩, "", false, none⟩
    ⟨"requirements.txt", "text/plain", 10⟩ ["## Report\n", "Line 2"] "boom"
    rfl (by decide)
  exact ⟨h.1.trans rfl, h.2.1⟩

/-- Claim C3: with no stored session token, `getAnalysisStream` throws the
missing-session error immediately — no request is sent and no fragment is
delivered; with a token, the single request carries
`Authorization: Bearer <token>`. -/
theorem C3_session_precondition (pn : String) (f : CandidateFile)
    (resp : api.StreamResponse) :
    (api.getAnalysisStream none pn f resp).requests = [] ∧
    (api.getAnalysisStream none pn f resp).thrown =
      some "Not authenticated. Please log in." ∧
    (api.getAnalysisStream none pn f resp).fragments = [] ∧
    ∀ t : String, (api.getAnalysisStream (some t) pn f resp).requests =
      [⟨"/generate/report", "Bearer " ++ t, "text/plain", pn, f.name⟩] := by
  refine ⟨rfl, rfl, rfl, fun t => ?_⟩
  cases resp <;> rfl

/-- Claim C4: the validator applies MIME type, then extension, then size,
stopping at the first failure and reporting only that rule's reason; a wrong
MIME type is rejected with the MIME reason regardless of name and size, a
correct MIME type with a name not ending in `.txt` is rejected with the
extension reason regardless of size, and every rejection clears the selection
and calls `onChange` with the absent value. -/
theorem C4_rules_in_order (s : FileUpload.State) (f : CandidateFile) :
    (f.type ≠ "text/plain" →
      FileUpload.handleFileChange s (some f) =
        ⟨⟨none, some "Only text files are allowed (MIME type: text/plain)"⟩,
          [none]⟩) ∧
    (f.type = "text/plain" → Js.endsWith f.name ".txt" = false →
      FileUpload.handleFileChange s (some f) =
        ⟨⟨none, some "Only .txt files are allowed"⟩, [none]⟩) ∧
    (f.type = "text/plain" → Js.endsWith f.name ".txt" = true →
      FileUpload.MAX_FILE_SIZE < f.size →
      FileUpload.handleFileChange s (some f) =
        ⟨⟨none, some "File size must not exceed 1 MB"⟩, [none]⟩) := by
  refine ⟨fun h1 => ?_, fun h1 h2 => ?_, fun h1 h2 h3 => ?_⟩ <;>
    simp [FileUpload.handleFileChange, h1, *]

/-- Witness for C4: a wrong MIME type (large and with wrong extension too), a
correct MIME type with a wrong extension, and an oversized text file. -/
theorem C4_rules_in_order_witness :
    FileUpload.handleFileChange ⟨none, none⟩
      (some ⟨"big.md", "application/json", 9999999⟩) =
      ⟨⟨none, some "Only text files are allowed (MIME type: text/plain)"⟩,
        [none]⟩ ∧
    FileUpload.handleFileChange ⟨none, none⟩
      (some ⟨"notes.md", "text/plain", 10⟩) =
      ⟨⟨none, some "Only .txt files are allowed"⟩, [none]⟩ ∧
    FileUpload.handleFileChange ⟨none, none⟩
      (some ⟨"big.txt", "text/plain", 2000000⟩) =
      ⟨⟨none, some "File size must not exceed 1 MB"⟩, [none]⟩ :=
  ⟨(C4_rules_in_order ⟨none, none⟩ ⟨"big.md", "application/json", 9999999⟩).1
     (by decide),
   (C4_rules_in_order ⟨none, none⟩ ⟨"notes.md", "text/plain", 10⟩).2.1
     (by decide) (by decide),
   (C4_rules_in_order ⟨none, none⟩ ⟨"big.txt", "text/plain", 2000000⟩).2.2
     (by decide) (by decide) (by decide)⟩

/-- Claim C5: for a file passing the MIME and extension rules, the size rule
accepts exactly the sizes `≤ MAX_FILE_SIZE`: strictly larger is rejected with
the size reason, and (in particular, exercised by the witness) size equal to
the maximum and to the maximum minus one are both accepted. -/
theorem C5_size_rule (s : FileUpload.State) (f : CandidateFile)
    (hm : f.type = "text/plain") (he : Js.endsWith f.name ".txt" = true) :
    (FileUpload.MAX_FILE_SIZE < f.size →
      FileUpload.handleFileChange s (some f) =
        ⟨⟨none, some "File size must not exceed 1 MB"⟩, [none]⟩) ∧
    (f.size ≤ FileUpload.MAX_FILE_SIZE →
      FileUpload.handleFileChange s (some f) = ⟨⟨some f, none⟩, [some f]⟩) := by
  constructor
  · intro h
    simp [FileUpload.handleFileChange, hm, he, h]
  · intro h
    simp [FileUpload.handleFileChange, hm, he, Nat.not_lt.mpr h]

/-- Witness for C5 at the boundary: `MAX_FILE_SIZE = 1048576`; size 1048577
is rejected, sizes 1048576 and 1048575 are accepted. -/
theorem C5_size_rule_witness :
    FileUpload.handleFileChange ⟨none, none⟩
      (some ⟨"r.txt", "text/plain", 1048577⟩) =
      ⟨⟨none, some "File size must not exceed 1 MB"⟩, [none]⟩ ∧
    FileUpload.handleFileChange ⟨none, none⟩
      (some ⟨"r.txt", "text/plain", 1048576⟩) =
      ⟨⟨some ⟨"r.txt", "text/plain", 1048576⟩, none⟩,
        [some ⟨"r.txt", "text/plain", 1048576⟩]⟩ ∧
    FileUpload.handleFileChange ⟨none, none⟩
      (some ⟨"r.txt", "text/plain", 1048575⟩) =
      ⟨⟨some ⟨"r.txt", "text/plain", 1048575⟩, none⟩,
        [some ⟨"r.txt", "text/plain", 1048575⟩]⟩ :=
  ⟨(C5_size_rule ⟨none, none⟩ ⟨"r.txt", "text/plain", 1048577⟩
      (by decide) (by decide)).1 (by decide),
   (C5_size_rule ⟨none, none⟩ ⟨"r.txt", "text/plain", 1048576⟩
      (by decide) (by decide)).2 (by decide),
   (C5_size_rule ⟨none, none⟩ ⟨"r.txt", "text/plain", 1048575⟩
      (by decide) (by decide)).2 (by decide)⟩


/-- Claim C6 concerns both auth forms.  The login form does gate the network
call on a full `loginSchema` pass (first conjunct).  The sign-up form does
not: its submit handler checks only the confirmation-equality rule, so with
identifier `""` and secret/confirmation `"ab"`/`"ab"` — which `signUpSchema`
rejects for identifier length — `registerUser` is still called (remaining
conjuncts evaluate the handler at that failing input). -/
theorem C6_local_validation_gate :
    (∀ (e p : String) (b : Bool),
      (LoginPage.handleSubmit e p b).networkCalled = true →
      ∃ v, validators.loginSchema e p = .ok v) ∧
    validators.signUpSchema "" "ab" "ab" =
      .error "Username must be at least 4 characters." ∧
    (SignUpPage.handleSubmit "" "ab" "ab" true).networkCalled = true ∧
    (SignUpPage.handleSubmit "" "ab" "ab" true).networkArgs = some ("", "ab") := by
  refine ⟨?_, rfl, rfl, rfl⟩
  intro e p b h
  cases hv : validators.loginSchema e p with
  | error m => simp [LoginPage.handleSubmit, hv] at h
  | ok v => exact ⟨v, rfl⟩

/-- Witness for C6's quantified conjunct at a concrete locally-valid login. -/
theorem C6_local_validation_gate_witness :
    ∃ v, validators.loginSchema "user@example.com" "password123" = .ok v :=
  C6_local_validation_gate.1 "user@example.com" "password123" true rfl

/-- Claim C7 is false as stated: the zod chain is
`min(4).max(100).trim()`, so the length checks run on the raw string and the
trim transform only afterwards.  The identifier `"ab  "` has raw length 4 but
trimmed length 2 < 4, yet login submission is not blocked: the network call
is made (with the raw identifier). -/
theorem C7_counterexample :
    (Js.trim "ab  ").length < 4 ∧
    LoginPage.handleSubmit "ab  " "password123" true =
      ⟨"", true, some ("ab  ", "password123")⟩ :=
  ⟨by decide, rfl⟩

/-- Claim C7 (amended): the identifier length rule is checked on the raw
(untrimmed) string — submission is blocked with the identifier-length message
and no network call exactly when the raw length is below 4; a raw length
within `[4, 100]` passes the rule and only then is the value trimmed. -/
theorem C7_raw_length_rule (u p : String) (b : Bool) :
    (u.length < 4 →
      LoginPage.handleSubmit u p b =
        ⟨"Username must be at least 4 characters.", false, none⟩) ∧
    (4 ≤ u.length → u.length ≤ 100 →
      validators.usernameSchema u = .ok (Js.trim u)) := by
  constructor
  · intro h
    simp [LoginPage.handleSubmit, validators.loginSchema,
      validators.usernameSchema, h]
  · intro h1 h2
    simp [validators.usernameSchema, Nat.not_lt.mpr h1,
      show ¬ u.length > 100 from Nat.not_lt.mpr h2]

/-- Witness for C7 (amended): raw length 2 blocks the submit; raw length
exactly 4 passes the identifier rule. -/
theorem C7_raw_length_rule_witness :
    LoginPage.handleSubmit "ab" "password123" true =
      ⟨"Username must be at least 4 characters.", false, none⟩ ∧
    validators.usernameSchema "abcd" = .ok (Js.trim "abcd") :=
  ⟨(C7_raw_length_rule "ab" "password123" true).1 (by decide),
   (C7_raw_length_rule "abcd" "password123" true).2 (by decide) (by decide)⟩

/-- Claim C8: whenever secret and confirmation differ, registration
submission stops with the mismatch error and no network call is made,
whatever the other inputs (in particular even when both strings satisfy the
length rule, as the witness exercises). -/
theorem C8_mismatch_blocks (e p c : String) (b : Bool) (h : p ≠ c) :
    SignUpPage.handleSubmit e p c b =
      ⟨"Passwords do not match", false, none⟩ := by
  simp [SignUpPage.handleSubmit, h]

/-- Witness for C8: both secrets satisfy the minimum-length rule yet differ,
and the network is not called. -/
theorem C8_mismatch_blocks_witness :
    4 ≤ "password123".length ∧ 4 ≤ "password456".length ∧
    SignUpPage.handleSubmit "user@example.com" "password123" "password456"
      true = ⟨"Passwords do not match", false, none⟩ :=
  ⟨by decide, by decide,
   C8_mismatch_blocks "user@example.com" "password123" "password456" true
     (by decide)⟩

/-- Claim C9 is false as stated: selecting a new file while a stream is in
flight (the `streaming` prior state, `isLoading = true`) does reset the
transcript and the error, but `handleFileChange` never touches the loading
flag, so the controller is left in the loading state rather than returned to
`idle`. -/
theorem C9_counterexample :
    (MainPage.selectFile ⟨some ⟨"a.txt", "text/plain", 3⟩, none⟩
      ⟨"proj", some ⟨"a.txt", "text/plain", 3⟩, "## partial", true, none⟩
      (some ⟨"b.txt", "text/plain", 3⟩)).2.isLoading = true := rfl

/-- Claim C9 (amended): selecting a new file at any point resets the
transcript to empty and clears any displayed error regardless of the prior
state, with the stored file equal to the validator's outcome (so the reset
does not depend on that outcome); the loading flag is left unchanged, so from
any non-loading prior state (idle, done, error) the controller returns to
`idle`, while a selection made during an in-flight stream keeps the loading
flag set until that call completes. -/
theorem C9_select_resets (fs : FileUpload.State) (s : MainPage.State)
    (f : CandidateFile) :
    (MainPage.selectFile fs s (some f)).2.analysisResult = "" ∧
    (MainPage.selectFile fs s (some f)).2.error = none ∧
    (MainPage.selectFile fs s (some f)).2.file =
      (MainPage.selectFile fs s (some f)).1.file ∧
    (MainPage.selectFile fs s (some f)).2.projectName = s.projectName ∧
    (MainPage.selectFile fs s (some f)).2.isLoading = s.isLoading := by
  simp only [MainPage.selectFile, FileUpload.handleFileChange]
  split_ifs <;> simp [MainPage.handleFileChange]

/-- Claim C10: a `null` candidate (file picker cancelled) leaves the
`FileUpload` state — accepted file and displayed reason — entirely unchanged
and makes no `onChange` call, so the page controller's state is untouched
too; the same holds for an empty `e.target.files` list in the input-change
handler. -/
theorem C10_null_candidate_frame (fs : FileUpload.State) (s : MainPage.State) :
    FileUpload.handleFileChange fs none = ⟨fs, []⟩ ∧
    FileUpload.handleInputChange fs [] = ⟨fs, []⟩ ∧
    MainPage.selectFile fs s none = (fs, s) :=
  ⟨rfl, rfl, rfl⟩
